import Mathlib

/-!
Verification of the media capture / chunked recording / live chunk transport
core of the ai-interview repository, shallowly embedded in Lean.

The embedding covers:
* the recorder application (the `App` component holding `startRecording`,
  `stopRecording`, `resetRecording`, `getMimeType`, `setupWebSocket`,
  `mediaRecorder.ondataavailable`, `mediaRecorder.onstop`, and the
  timer `useEffect` keyed on `isRecording`);
* the `ImprovedVideoChat` component (`startRecording`, `stopRecording`,
  `stopMediaTracks`, `toggleMute`).

Media chunks are modelled as byte lists, so `Blob.size` is the list length
and `new Blob(chunks)` is list concatenation.  Browser side effects that the
specification's claims talk about (revoking object URLs, opening a socket,
logging an error, stopping a media track) are reified as an `Effect` trace
returned next to the new state, and timer scheduling by the WebSocket
`onclose` handler is reified as a list of `Sched` records.
-/

namespace AIInterview

/-- A recorded media chunk: `e.data` as its byte content; `e.data.size` is
the length of this list. -/
abbrev Chunk := List Nat

/-- Kind of a media track inside a `MediaStream` (`getAudioTracks` filters
on this). -/
inductive TrackKind where
  | audio
  | video
deriving DecidableEq

/-- A media track: platform handle identity, its kind, the mutable
`enabled` flag toggled by `toggleMute`, and whether `track.stop()` has been
called on it. -/
structure Track where
  id : Nat
  kind : TrackKind
  enabled : Bool
  stopped : Bool
deriving DecidableEq

/-- A `MediaStream` is its list of tracks. -/
abbrev Stream := List Track

/-- `WebSocket.readyState` values. -/
inductive WSReadyState where
  | CONNECTING
  | OPEN
  | CLOSING
  | CLOSED
deriving DecidableEq

/-- A WebSocket as held in `websocketRef`: its platform ready state, and
the value of `isRecording` that the `onclose` closure captured lexically
from the render whose `setupWebSocket` created the socket.  React state
reads inside the handler see this captured constant, not the live state of
a later render. -/
structure WSConn where
  readyState : WSReadyState
  capturedIsRecording : Bool
deriving DecidableEq

/-- The source kind passed to `startRecording`. -/
inductive RecType where
  | webcam
  | screen
deriving DecidableEq

/-- The artifact backing a preview/download URL: a `Blob` built from the
concatenated chunk bytes together with its MIME type. -/
structure Artifact where
  content : List Nat
  mime : String
deriving DecidableEq

/-- Reified browser side effects, in the order the code performs them. -/
inductive Effect where
  | revokeUrl
  | openWS (endpoint : String)
  | logError (msg : String)
  | stopTrack (id : Nat)
deriving DecidableEq

/-- Recognises track-stop effects (used to state that an operation releases
no tracks). -/
def isStopTrackEffect : Effect → Bool
  | Effect.stopTrack _ => true
  | _ => false

/-- The actions the `ondataavailable` handler performs for one delivered
chunk, in execution order: pushing onto the local `chunks` array and
sending the bytes over the WebSocket. -/
inductive Act where
  | append (c : Chunk)
  | send (c : Chunk)
deriving DecidableEq

/-- What a timer scheduled by the transport can run when it fires.  The only
timer the transport schedules is the `reconnect` callback, which invokes
`setupWebSocket` again. -/
inductive TimerAction where
  | runSetupWebSocket
deriving DecidableEq

/-- One scheduled timer: `setTimeout(action, delay)`. -/
structure Sched where
  delay : Nat
  action : TimerAction
deriving DecidableEq

/-- The fixed WebSocket endpoint of `setupWebSocket`. -/
def wsEndpoint : String := "ws://localhost:8000/ws"

/-- The ordered encoding-profile preference list probed by `getMimeType`. -/
def mimeTypes : List String :=
  ["video/webm;codecs=vp8,opus",
   "video/webm;codecs=vp9,opus",
   "video/webm;codecs=h264,opus",
   "video/mp4"]

/-- The `for`-loop of `getMimeType`: return the first type the platform
reports as supported, or the `'video/webm'` fallback after the loop. -/
def findSupported (isTypeSupported : String → Bool) : List String → String
  | [] => "video/webm"
  | t :: ts => if isTypeSupported t then t else findSupported isTypeSupported ts

/-- `getMimeType`, parameterised by the platform's
`MediaRecorder.isTypeSupported` predicate. -/
def getMimeType (isTypeSupported : String → Bool) : String :=
  findSupported isTypeSupported mimeTypes

/-- The body of the `reconnect` closure inside `setupWebSocket`: one
`setTimeout` of 3000 ms whose callback runs `setupWebSocket` again. -/
def reconnectSched : List Sched :=
  [{ delay := 3000, action := TimerAction.runSetupWebSocket }]

/-- The `ws.onclose` handler's scheduling behaviour: the handler's text is
`if (isRecording) reconnect()`, but the `isRecording` it reads is the
constant captured by the closure when `setupWebSocket` ran — the creating
render's value, not the live status when the close event fires.  The
handler schedules the `reconnect` timer when that captured value is true,
and nothing otherwise. -/
def onCloseSched (capturedIsRecording : Bool) : List Sched :=
  if capturedIsRecording then reconnectSched else []

/-- The effects of `setupWebSocket` itself: it constructs a new WebSocket
on the fixed endpoint (i.e. opens a connection). -/
def setupWebSocketEffects : List Effect :=
  [Effect.openWS wsEndpoint]

/-- Running a fired timer action: the reconnect timer runs
`setupWebSocket`. -/
def timerActionEffects : TimerAction → List Effect
  | TimerAction.runSetupWebSocket => setupWebSocketEffects

/-- The state of the recorder `App` component: its React state hooks
(`isRecording`, `recordingType`, `recordedChunks`, `previewUrl`,
`recordingDuration`), the refs (`mediaRecorderRef` as `hasRecorder`,
`streamRef`, `websocketRef` as the held socket with its closure-captured
recording flag), and the closure-local `chunks` array of the active
recorder (`buf`).  `previewUrl` holds the artifact backing the object
URL. -/
structure AppState where
  isRecording : Bool := false
  recordingType : Option RecType := none
  recordedChunks : List Chunk := []
  previewUrl : Option Artifact := none
  recordingDuration : Nat := 0
  hasRecorder : Bool := false
  buf : List Chunk := []
  stream : Option Stream := none
  ws : Option WSConn := none
deriving DecidableEq

/-- The initial component state: nothing recorded, no refs populated. -/
def initState : AppState := {}

/-- The `useEffect` keyed on `isRecording`: while recording the interval
timer runs; otherwise the interval is cleared and `recordingDuration` is
reset to 0. -/
def timerEffect (s : AppState) : AppState :=
  if s.isRecording then s else { s with recordingDuration := 0 }

/-- The `ondataavailable` handler for one delivered chunk, as the list of
actions it performs in execution order: when `e.data.size > 0` it pushes the
chunk onto the local `chunks` array and then, if a WebSocket is held and its
`readyState` is `OPEN`, sends the chunk bytes; a zero-size chunk triggers
nothing. -/
def ondataavailable (ws : Option WSReadyState) (c : Chunk) : List Act :=
  if 0 < c.length then
    Act.append c :: (if ws = some WSReadyState.OPEN then [Act.send c] else [])
  else []

/-- Interpreting one action's consequence on the local chunk buffer. -/
def applyAct (b : List Chunk) : Act → List Chunk
  | Act.append c => b ++ [c]
  | Act.send _ => b

/-- The state change of a delivered `dataavailable` event: the buffer is
updated by the handler's actions (the handler checks the held socket's
`readyState`). -/
def dataStep (s : AppState) (c : Chunk) : AppState :=
  { s with buf :=
      (ondataavailable (s.ws.map WSConn.readyState) c).foldl applyAct s.buf }

/-- The success path of `startRecording` (the platform granted the stream):
revokes any previous preview URL, runs `setupWebSocket` — whose `onclose`
closure captures the current render's `isRecording`, still the pre-update
value because `setIsRecording(true)` only runs afterwards — stores the new
stream, constructs a fresh recorder (with its fresh, empty `chunks` array)
and starts it, and sets the recording flags.  Note the old stream held in
`streamRef` is overwritten without any of its tracks being stopped. -/
def startRecordingOk (ty : RecType) (newStream : Stream) (s : AppState) :
    AppState × List Effect :=
  ({ s with previewUrl := none,
            ws := some { readyState := WSReadyState.CONNECTING,
                         capturedIsRecording := s.isRecording },
            stream := some newStream,
            hasRecorder := true,
            buf := [],
            isRecording := true,
            recordingType := some ty },
   (if s.previewUrl.isSome then [Effect.revokeUrl] else [])
     ++ setupWebSocketEffects)

/-- The failure path of `startRecording` (`getUserMedia` /
`getDisplayMedia` rejected with `msg`): the preview was already revoked and
`setupWebSocket` already ran before the request (capturing the current
render's `isRecording`), and the `catch` block only logs the error. -/
def startRecordingFail (msg : String) (s : AppState) : AppState × List Effect :=
  ({ s with previewUrl := none,
            ws := some { readyState := WSReadyState.CONNECTING,
                         capturedIsRecording := s.isRecording } },
   (if s.previewUrl.isSome then [Effect.revokeUrl] else [])
     ++ setupWebSocketEffects ++ [Effect.logError msg])

/-- `stopRecording`: guarded on `mediaRecorderRef.current && isRecording`;
stops the recorder and clears the recording flags.  (The recorder's
`onstop` callback fires separately, see `onstopHandler`.) -/
def stopRecording (s : AppState) : AppState :=
  if s.hasRecorder ∧ s.isRecording then
    { s with isRecording := false, recordingType := none }
  else s

/-- The recorder's `onstop` callback: publishes the local `chunks` array
into `recordedChunks`, stops every track of the held stream, detaches the
preview surface, closes the WebSocket, and builds the preview artifact
`new Blob(chunks, { type: getMimeType() })`. -/
def onstopHandler (isTypeSupported : String → Bool) (s : AppState) : AppState :=
  { s with recordedChunks := s.buf,
           stream := s.stream.map (List.map fun t => { t with stopped := true }),
           ws := s.ws.map fun c => { c with readyState := WSReadyState.CLOSED },
           previewUrl := some { content := s.buf.flatten,
                                mime := getMimeType isTypeSupported } }

/-- `resetRecording`: revokes the preview URL and clears it, and empties
`recordedChunks`. -/
def resetRecording (s : AppState) : AppState :=
  { s with previewUrl := none, recordedChunks := [] }

/-- The recording status as the UI derives it: recording while
`isRecording`; stopped while a preview or recorded chunks exist; idle
otherwise («Ready to record»). -/
inductive Status where
  | idle
  | recording
  | stopped
deriving DecidableEq

/-- Derives the spec's `RecordingState.status` from the component state,
following the status panel's rendering order. -/
def status (s : AppState) : Status :=
  if s.isRecording then Status.recording
  else if s.previewUrl.isSome ∨ s.recordedChunks ≠ [] then Status.stopped
  else Status.idle

/-- The events that drive the recorder component. -/
inductive Ev where
  | startOk (ty : RecType) (ns : Stream)
  | startFail (msg : String)
  | tick
  | data (c : Chunk)
  | wsOpened
  | wsClosed
  | wsReconnectFired
  | stopClick
  | recorderStopped
  | resetClick

/-- One event step of the recorder component.  `startRecording` can only
be invoked while its buttons are rendered, i.e. while `!isRecording` and no
preview exists; the interval tick only fires while `isRecording` (the
timer effect clears it otherwise); the recorder's `onstop` only fires when
a recorder was constructed; and a fired reconnect timer runs the stale
render's `setupWebSocket`, so the replacement socket's `onclose` captures
that same render's `isRecording` again. -/
def step (isTypeSupported : String → Bool) (s : AppState) : Ev → AppState
  | Ev.startOk ty ns =>
      if s.isRecording = false ∧ s.previewUrl = none then
        timerEffect (startRecordingOk ty ns s).1
      else s
  | Ev.startFail msg =>
      if s.isRecording = false ∧ s.previewUrl = none then
        timerEffect (startRecordingFail msg s).1
      else s
  | Ev.tick =>
      if s.isRecording then
        { s with recordingDuration := s.recordingDuration + 1 }
      else s
  | Ev.data c => dataStep s c
  | Ev.wsOpened =>
      { s with ws := s.ws.map fun c => { c with readyState := WSReadyState.OPEN } }
  | Ev.wsClosed =>
      { s with ws := s.ws.map fun c => { c with readyState := WSReadyState.CLOSED } }
  | Ev.wsReconnectFired =>
      match s.ws with
      | some c =>
          { s with ws := some { readyState := WSReadyState.CONNECTING,
                                capturedIsRecording := c.capturedIsRecording } }
      | none => s
  | Ev.stopClick => timerEffect (stopRecording s)
  | Ev.recorderStopped =>
      if s.hasRecorder then onstopHandler isTypeSupported s else s
  | Ev.resetClick => resetRecording s

/-- Reachability of a component state from the initial state under the
event semantics. -/
inductive Reachable (isTypeSupported : String → Bool) : AppState → Prop where
  | init : Reachable isTypeSupported initState
  | next {s : AppState} (e : Ev) :
      Reachable isTypeSupported s →
      Reachable isTypeSupported (step isTypeSupported s e)

/-- The inductive invariant of the recorder component: the duration is 0
whenever not recording, every buffered or published chunk is non-empty, a
recorder exists whenever recording, and every held socket's `onclose`
closure has captured `isRecording = false` (because `setupWebSocket` only
ever runs from a render in which recording had not started, and reconnect
reuses that same render's closure). -/
def Inv (s : AppState) : Prop :=
  (s.isRecording = false → s.recordingDuration = 0) ∧
  (∀ c ∈ s.buf, 0 < c.length) ∧
  (∀ c ∈ s.recordedChunks, 0 < c.length) ∧
  (s.isRecording = true → s.hasRecorder = true) ∧
  (∀ conn : WSConn, s.ws = some conn → conn.capturedIsRecording = false)

/-- The state of the `ImprovedVideoChat` component: its React state hooks
(`isRecording`, `recordingTime`, `isMuted`, `streamError`), `streamRef`,
and the preview surface's `srcObject` (`videoSrc`). -/
structure IVCState where
  isRecording : Bool := false
  recordingTime : Nat := 0
  isMuted : Bool := false
  streamError : Option String := none
  stream : Option Stream := none
  videoSrc : Option Stream := none
deriving DecidableEq

/-- A fresh, idle `ImprovedVideoChat` state. -/
def initIVC : IVCState := {}

/-- `stopMediaTracks`: when a stream is held, stops every one of its tracks
and clears `streamRef`; returns the ids of the released tracks next to the
new state.  When no stream is held, it does nothing and releases nothing. -/
def stopMediaTracks (s : IVCState) : IVCState × List Nat :=
  match s.stream with
  | some tks => ({ s with stream := none }, tks.map Track.id)
  | none => (s, [])

/-- `ImprovedVideoChat`'s `stopRecording`: releases the tracks, detaches
the preview surface, and resets the recording flag, the timer counter and
the mute flag.  Returns the released track ids next to the new state.
Setting `isRecording` to `false` also clears the interval via the timer
effect. -/
def stopRecordingIVC (s : IVCState) : IVCState × List Nat :=
  let sr := stopMediaTracks s
  ({ sr.1 with videoSrc := none,
               isRecording := false,
               recordingTime := 0,
               isMuted := false },
   sr.2)

/-- `toggleMute`: when a stream is held, sets the `enabled` flag of each of
its audio tracks to the current `isMuted` value; then flips `isMuted`. -/
def toggleMute (s : IVCState) : IVCState :=
  let s₁ :=
    match s.stream with
    | some tks =>
        { s with stream := some (tks.map fun (t : Track) =>
            if t.kind = TrackKind.audio then { t with enabled := s.isMuted }
            else t) }
    | none => s
  { s₁ with isMuted := !s.isMuted }

/-- The thrown value of a failed `getUserMedia` call: `some m` when it is
an `Error` with message `m`, `none` otherwise. -/
abbrev CaptureFailure := Option String

/-- The message `ImprovedVideoChat` surfaces for a capture failure
(`err instanceof Error ? err.message : "Failed to access camera"`). -/
def captureErrorMsg : CaptureFailure → String
  | some m => m
  | none => "Failed to access camera"

/-- `ImprovedVideoChat`'s `startRecording`, applied to the platform's
response: clears `streamError`; on success stores the stream, attaches the
preview surface and starts recording; on failure stores the surfaced error
message and touches nothing else. -/
def startRecordingIVC (res : Except CaptureFailure Stream) (s : IVCState) :
    IVCState :=
  let s₀ := { s with streamError := none }
  match res with
  | Except.ok tks =>
      { s₀ with stream := some tks, videoSrc := some tks, isRecording := true }
  | Except.error e => { s₀ with streamError := some (captureErrorMsg e) }

/-- Whether the `ImprovedVideoChat` interval timer is running: the timer
`useEffect` keyed on `isRecording` keeps an interval exactly while
`isRecording` holds. -/
def ivcTimerActive (s : IVCState) : Bool := s.isRecording

/-- A live (unstopped) video track held by an existing capture session. -/
def liveTrack : Track :=
  { id := 0, kind := TrackKind.video, enabled := true, stopped := false }

/-- A recorder component state with an existing active session holding
`liveTrack`. -/
def c8State : AppState :=
  { initState with isRecording := true,
                   recordingType := some RecType.webcam,
                   hasRecorder := true,
                   stream := some [liveTrack] }

/-- A freshly acquired stream, distinct from `liveTrack`'s session. -/
def freshTrack : Track :=
  { id := 1, kind := TrackKind.video, enabled := true, stopped := false }

/-- A stream with one audible audio track and one video track, for
exercising `toggleMute`. -/
def muteDemoTracks : Stream :=
  [{ id := 0, kind := TrackKind.audio, enabled := true, stopped := false },
   { id := 1, kind := TrackKind.video, enabled := true, stopped := false }]

/-- An unmuted `ImprovedVideoChat` state holding `muteDemoTracks`. -/
def muteDemoState : IVCState := { initIVC with stream := some muteDemoTracks }

/-- The reachable recorder state in which a recording is in progress and
the transport has completed its open handshake: start was clicked from the
fresh idle render, then the socket opened. -/
def c1RecState : AppState :=
  step (fun _ => true)
    (step (fun _ => true) initState (Ev.startOk RecType.webcam [liveTrack]))
    Ev.wsOpened

theorem findSupported_of_none (sup : String → Bool) :
    ∀ l, (∀ t ∈ l, sup t = false) → findSupported sup l = "video/webm" := by
  intro l
  induction l with
  | nil => intro; rfl
  | cons t ts ih =>
      intro h
      have ht : sup t = false := h t (by simp)
      simp only [findSupported, ht, if_false]
      exact ih fun u hu => h u (by simp [hu])

theorem findSupported_of_first (sup : String → Bool) :
    ∀ (l : List String) (i : Fin l.length),
      sup (l.get i) = true →
      (∀ j : Fin l.length, (j : Nat) < (i : Nat) → sup (l.get j) = false) →
      findSupported sup l = l.get i := by
  intro l
  induction l with
  | nil => intro i; exact absurd i.isLt (by simp)
  | cons t ts ih =>
      intro i hs hfirst
      match i with
      | ⟨0, _⟩ =>
          simp only [List.get] at hs
          simp [findSupported, hs]
      | ⟨k + 1, h⟩ =>
          have h0 : sup t = false := hfirst ⟨0, by simp⟩ (Nat.succ_pos k)
          simp only [findSupported, h0, if_false]
          simp only [List.get] at hs ⊢
          exact ih ⟨k, Nat.lt_of_succ_lt_succ h⟩ hs
            fun j hj => by
              have := hfirst ⟨(j : Nat) + 1, Nat.succ_lt_succ j.isLt⟩
                (Nat.succ_lt_succ hj)
              simpa using this

theorem foldl_ondataavailable (ws : Option WSReadyState) (c : Chunk)
    (b : List Chunk) :
    (ondataavailable ws c).foldl applyAct b =
      if 0 < c.length then b ++ [c] else b := by
  unfold ondataavailable
  by_cases h : 0 < c.length
  · by_cases hw : ws = some WSReadyState.OPEN <;> simp [h, hw, applyAct]
  · simp [h]

theorem dataStep_eq (s : AppState) (c : Chunk) :
    dataStep s c =
      { s with buf := if 0 < c.length then s.buf ++ [c] else s.buf } := by
  unfold dataStep
  rw [foldl_ondataavailable]

/-- Claim C5: encoding-profile negotiation returns the first profile in the
fixed ordered preference list that the platform reports as supported, and
the generic `'video/webm'` default when none of the listed profiles report
support. -/
theorem encoding_profile_negotiation (sup : String → Bool) :
    (∀ i : Fin mimeTypes.length, sup (mimeTypes.get i) = true →
        (∀ j : Fin mimeTypes.length, (j : Nat) < (i : Nat) →
          sup (mimeTypes.get j) = false) →
        getMimeType sup = mimeTypes.get i) ∧
    ((∀ t ∈ mimeTypes, sup t = false) → getMimeType sup = "video/webm") := by
  constructor
  · intro i hs hfirst
    exact findSupported_of_first sup mimeTypes i hs hfirst
  · intro h
    exact findSupported_of_none sup mimeTypes h

/-- Witness for C5: a platform supporting only the second profile
negotiates exactly that profile, and a platform supporting nothing
negotiates the default. -/
theorem encoding_profile_negotiation_witness :
    getMimeType (fun t => t = "video/webm;codecs=vp9,opus") =
        "video/webm;codecs=vp9,opus" ∧
    getMimeType (fun _ => false) = "video/webm" := by
  constructor
  · have h := (encoding_profile_negotiation
        (fun t => t = "video/webm;codecs=vp9,opus")).1
      ⟨1, by simp [mimeTypes]⟩ (by simp [mimeTypes]) (by decide)
    simpa [mimeTypes] using h
  · exact (encoding_profile_negotiation (fun _ => false)).2 (by decide)

theorem inv_init : Inv initState := by
  refine ⟨fun _ => rfl, ?_, ?_, fun hck => by simp [initState] at hck,
      fun conn hconn => by simp [initState] at hconn⟩ <;>
    intro c hc <;> simp [initState] at hc

theorem inv_step (isTypeSupported : String → Bool) (s : AppState) (e : Ev)
    (h : Inv s) : Inv (step isTypeSupported s e) := by
  obtain ⟨h1, h2, h3, h4, h5⟩ := h
  cases e with
  | startOk ty ns =>
      by_cases hg : s.isRecording = false ∧ s.previewUrl = none
      · refine ⟨by simp [step, hg, startRecordingOk, timerEffect],
          by simp [step, hg, startRecordingOk, timerEffect],
          by simpa [step, hg, startRecordingOk, timerEffect] using h3,
          by simp [step, hg, startRecordingOk, timerEffect], ?_⟩
        have hws : (step isTypeSupported s (Ev.startOk ty ns)).ws =
            some { readyState := WSReadyState.CONNECTING,
                   capturedIsRecording := s.isRecording } := by
          simp [step, hg, startRecordingOk, timerEffect]
        intro conn hconn
        rw [hws] at hconn
        rw [← Option.some.inj hconn]
        exact hg.1
      · have hid : step isTypeSupported s (Ev.startOk ty ns) = s := by
          simp [step, hg]
        rw [hid]
        exact ⟨h1, h2, h3, h4, h5⟩
  | startFail msg =>
      by_cases hg : s.isRecording = false ∧ s.previewUrl = none
      · refine ⟨by simp [step, hg, startRecordingFail, timerEffect, hg.1],
          by simpa [step, hg, startRecordingFail, timerEffect, hg.1] using h2,
          by simpa [step, hg, startRecordingFail, timerEffect, hg.1] using h3,
          by simp [step, hg, startRecordingFail, timerEffect, hg.1], ?_⟩
        have hws : (step isTypeSupported s (Ev.startFail msg)).ws =
            some { readyState := WSReadyState.CONNECTING,
                   capturedIsRecording := s.isRecording } := by
          simp [step, hg, startRecordingFail, timerEffect, hg.1]
        intro conn hconn
        rw [hws] at hconn
        rw [← Option.some.inj hconn]
        exact hg.1
      · have hid : step isTypeSupported s (Ev.startFail msg) = s := by
          simp [step, hg]
        rw [hid]
        exact ⟨h1, h2, h3, h4, h5⟩
  | tick =>
      by_cases hr : s.isRecording = true
      · exact ⟨by simp [step, hr], by simpa [step, hr] using h2,
          by simpa [step, hr] using h3, by simpa [step, hr] using h4,
          fun conn hconn => h5 conn (by simpa [step, hr] using hconn)⟩
      · have hr' : s.isRecording = false := by simpa using hr
        exact ⟨by simpa [step, hr'] using h1, by simpa [step, hr'] using h2,
          fun c hc => by
            rw [step] at hc
            rw [if_neg (by simp [hr'])] at hc
            exact h3 c hc,
          by simp [step, hr'],
          fun conn hconn => h5 conn (by simpa [step, hr'] using hconn)⟩
  | data c =>
      refine ⟨by simpa [step, dataStep_eq] using h1, ?_,
        by simpa [step, dataStep_eq] using h3,
        by simpa [step, dataStep_eq] using h4,
        fun conn hconn => h5 conn (by simpa [step, dataStep_eq] using hconn)⟩
      intro x hx
      rw [step] at hx
      rw [dataStep_eq] at hx
      by_cases hc : 0 < c.length
      · simp [hc] at hx
        rcases hx with hx | hx
        · exact h2 x hx
        · subst hx; exact hc
      · simp [hc] at hx
        exact h2 x hx
  | wsOpened =>
      refine ⟨by simpa [step] using h1, by simpa [step] using h2,
        by simpa [step] using h3, by simpa [step] using h4, ?_⟩
      intro conn hconn
      have hmap : s.ws.map
          (fun c => { c with readyState := WSReadyState.OPEN }) = some conn := by
        simpa [step] using hconn
      obtain ⟨c₀, hc₀, hfc⟩ := Option.map_eq_some'.mp hmap
      rw [← hfc]
      simpa using h5 c₀ hc₀
  | wsClosed =>
      refine ⟨by simpa [step] using h1, by simpa [step] using h2,
        by simpa [step] using h3, by simpa [step] using h4, ?_⟩
      intro conn hconn
      have hmap : s.ws.map
          (fun c => { c with readyState := WSReadyState.CLOSED }) = some conn := by
        simpa [step] using hconn
      obtain ⟨c₀, hc₀, hfc⟩ := Option.map_eq_some'.mp hmap
      rw [← hfc]
      simpa using h5 c₀ hc₀
  | wsReconnectFired =>
      cases hws : s.ws with
      | none =>
          exact ⟨by simpa [step, hws] using h1, by simpa [step, hws] using h2,
            by simpa [step, hws] using h3, by simpa [step, hws] using h4,
            fun conn hconn => by simp [step, hws] at hconn⟩
      | some c₀ =>
          refine ⟨by simpa [step, hws] using h1, by simpa [step, hws] using h2,
            by simpa [step, hws] using h3, by simpa [step, hws] using h4, ?_⟩
          have hws' : (step isTypeSupported s Ev.wsReconnectFired).ws =
              some { readyState := WSReadyState.CONNECTING,
                     capturedIsRecording := c₀.capturedIsRecording } := by
            simp [step, hws]
          intro conn hconn
          rw [hws'] at hconn
          rw [← Option.some.inj hconn]
          exact h5 c₀ hws
  | stopClick =>
      by_cases hR : s.hasRecorder = true ∧ s.isRecording = true
      · exact ⟨by simp [step, stopRecording, timerEffect, hR],
          by simpa [step, stopRecording, timerEffect, hR] using h2,
          by simpa [step, stopRecording, timerEffect, hR] using h3,
          by simp [step, stopRecording, timerEffect, hR],
          fun conn hconn =>
            h5 conn (by simpa [step, stopRecording, timerEffect, hR] using hconn)⟩
      · have hs : stopRecording s = s := by
          rw [stopRecording, if_neg]
          simpa using hR
        by_cases hr : s.isRecording = true
        · exact ⟨by simp [step, hs, timerEffect, hr],
            by simpa [step, hs, timerEffect, hr] using h2,
            by simpa [step, hs, timerEffect, hr] using h3,
            by simpa [step, hs, timerEffect, hr] using h4,
            fun conn hconn =>
              h5 conn (by simpa [step, hs, timerEffect, hr] using hconn)⟩
        · have hr' : s.isRecording = false := by simpa using hr
          exact ⟨by simp [step, hs, timerEffect, hr'],
            by simpa [step, hs, timerEffect, hr'] using h2,
            by simpa [step, hs, timerEffect, hr'] using h3,
            by simp [step, hs, timerEffect, hr'],
            fun conn hconn =>
              h5 conn (by simpa [step, hs, timerEffect, hr'] using hconn)⟩
  | recorderStopped =>
      by_cases hrec : s.hasRecorder = true
      · refine ⟨by simpa [step, hrec, onstopHandler] using h1,
          by simpa [step, hrec, onstopHandler] using h2,
          by simpa [step, hrec, onstopHandler] using h2,
          by simp [step, hrec, onstopHandler], ?_⟩
        intro conn hconn
        have hmap : s.ws.map
            (fun c => { c with readyState := WSReadyState.CLOSED }) = some conn := by
          simpa [step, hrec, onstopHandler] using hconn
        obtain ⟨c₀, hc₀, hfc⟩ := Option.map_eq_some'.mp hmap
        rw [← hfc]
        simpa using h5 c₀ hc₀
      · have hrec' : s.hasRecorder = false := by simpa using hrec
        exact ⟨by simpa [step, hrec'] using h1, by simpa [step, hrec'] using h2,
          by simpa [step, hrec'] using h3, by simpa [step, hrec'] using h4,
          fun conn hconn => h5 conn (by simpa [step, hrec'] using hconn)⟩
  | resetClick =>
      exact ⟨by simpa [step, resetRecording] using h1,
        by simpa [step, resetRecording] using h2,
        by simp [step, resetRecording],
        by simpa [step, resetRecording] using h4,
        fun conn hconn => h5 conn (by simpa [step, resetRecording] using hconn)⟩

theorem reachable_inv (isTypeSupported : String → Bool) (s : AppState)
    (h : Reachable isTypeSupported s) : Inv s := by
  induction h with
  | init => exact inv_init
  | next e _ ih => exact inv_step isTypeSupported _ e ih

/-- Claim C1 (code bug): the `onclose` guard reads the `isRecording`
captured by the closure when `setupWebSocket` ran, and in every reachable
state every held socket has captured `false` — `setupWebSocket` only runs
from a render in which recording had not started (the start buttons render
only then, and `setIsRecording(true)` runs after `setupWebSocket`), and the
reconnect timer reuses that same render's closure.  So a transport close
event while recording schedules no reconnect at all, contrary to the claim
and to the handler's own comment and log («attempting to reconnect»),
which intend the reconnect-while-recording branch — that branch is dead
code, though its text would schedule exactly one 3000 ms `setupWebSocket`
timer. -/
theorem stale_onclose_never_reconnects (isTypeSupported : String → Bool)
    (s : AppState) (h : Reachable isTypeSupported s) (conn : WSConn)
    (hw : s.ws = some conn) :
    conn.capturedIsRecording = false ∧
    onCloseSched conn.capturedIsRecording = [] ∧
    onCloseSched true = reconnectSched ∧
    timerActionEffects TimerAction.runSetupWebSocket =
      [Effect.openWS wsEndpoint] := by
  have h5 := (reachable_inv isTypeSupported s h).2.2.2.2
  have hc := h5 conn hw
  exact ⟨hc, by rw [hc]; rfl, rfl, rfl⟩

/-- Witness for C1: concretely, after start is clicked from the idle
render and the socket opens, the component is recording yet the held
socket's captured flag is `false`, and the close handler schedules
nothing. -/
theorem stale_onclose_never_reconnects_witness :
    c1RecState.isRecording = true ∧
    c1RecState.ws = some { readyState := WSReadyState.OPEN,
                           capturedIsRecording := false } ∧
    onCloseSched false = [] := by
  have hreach : Reachable (fun _ : String => true) c1RecState := by
    unfold c1RecState
    exact Reachable.next Ev.wsOpened
      (Reachable.next (Ev.startOk RecType.webcam [liveTrack]) Reachable.init)
  have h := stale_onclose_never_reconnects (fun _ => true) c1RecState hreach
    { readyState := WSReadyState.OPEN, capturedIsRecording := false }
    (by decide)
  exact ⟨by decide, by decide, h.2.1⟩

/-- Claim C10: a chunk delivered with zero size is discarded entirely — the
handler performs no action on it (neither buffering nor forwarding, whatever
the socket state) and the component state is unchanged — and consequently in
every reachable state every buffered and every published chunk has size
strictly greater than 0. -/
theorem zero_size_chunks_discarded (isTypeSupported : String → Bool)
    (s : AppState) (h : Reachable isTypeSupported s)
    (ws : Option WSReadyState) (c : Chunk) (hc : c.length = 0) :
    ondataavailable ws c = [] ∧
    dataStep s c = s ∧
    (∀ x ∈ s.buf, 0 < x.length) ∧
    (∀ x ∈ s.recordedChunks, 0 < x.length) := by
  obtain ⟨_, h2, h3, _, _⟩ := reachable_inv isTypeSupported s h
  refine ⟨?_, ?_, h2, h3⟩
  · unfold ondataavailable
    simp [hc]
  · rw [dataStep_eq]
    simp [hc]

/-- Witness for C10: the zero-size chunk triggers no action and no state
change at the initial state with an open socket. -/
theorem zero_size_chunks_discarded_witness :
    ondataavailable (some WSReadyState.OPEN) [] = [] ∧
    dataStep initState [] = initState := by
  have h := zero_size_chunks_discarded (fun _ => true) initState
    Reachable.init (some WSReadyState.OPEN) [] rfl
  exact ⟨h.1, h.2.1⟩

/-- Claim C6: in every reachable state with derived status idle the
published chunk buffer is empty and the duration counter is 0 (the timer
effect resets it on every transition out of recording); and stopping
(click, recorder `onstop`) immediately followed by `resetRecording` leaves
the buffer empty and the status idle, from any reachable state, including
one with zero chunks. -/
theorem idle_empty_and_reset (isTypeSupported : String → Bool) (s : AppState)
    (h : Reachable isTypeSupported s) :
    (status s = Status.idle →
        s.recordedChunks = [] ∧ s.recordingDuration = 0) ∧
    (step isTypeSupported (step isTypeSupported
        (step isTypeSupported s Ev.stopClick) Ev.recorderStopped)
        Ev.resetClick).recordedChunks = [] ∧
    status (step isTypeSupported (step isTypeSupported
        (step isTypeSupported s Ev.stopClick) Ev.recorderStopped)
        Ev.resetClick) = Status.idle := by
  obtain ⟨h1, h2, h3, h4, h5⟩ := reachable_inv isTypeSupported s h
  constructor
  · intro hst
    by_cases hr : s.isRecording = true
    · rw [status] at hst
      simp [hr] at hst
    · have hr' : s.isRecording = false := by simpa using hr
      by_cases hp : s.previewUrl.isSome = true ∨ s.recordedChunks ≠ []
      · rw [status] at hst
        simp [hr', hp] at hst
      · have hck : s.recordedChunks = [] := by
          by_contra hne
          exact hp (Or.inr hne)
        exact ⟨hck, h1 hr'⟩
  · by_cases hR : s.hasRecorder = true ∧ s.isRecording = true
    · constructor
      · simp [step, stopRecording, timerEffect, onstopHandler,
          resetRecording, hR, hR.1]
      · simp [step, stopRecording, timerEffect, onstopHandler,
          resetRecording, status, hR, hR.1]
    · have hs : stopRecording s = s := by
        rw [stopRecording, if_neg]
        simpa using hR
      have hr' : s.isRecording = false := by
        by_cases hr : s.isRecording = true
        · exact absurd ⟨h4 hr, hr⟩ hR
        · simpa using hr
      by_cases hh : s.hasRecorder = true
      · constructor
        · simp [step, hs, timerEffect, onstopHandler, resetRecording,
            hr', hh]
        · simp [step, hs, timerEffect, onstopHandler, resetRecording,
            status, hr', hh]
      · have hh' : s.hasRecorder = false := by simpa using hh
        constructor
        · simp [step, hs, timerEffect, resetRecording, hr', hh']
        · simp [step, hs, timerEffect, resetRecording, status, hr', hh']

/-- Witness for C6: at the initial (idle, zero-chunk) state the chunk
buffer is empty and the duration is 0, and stop-then-reset lands back in
idle with an empty buffer. -/
theorem idle_empty_and_reset_witness :
    initState.recordedChunks = [] ∧ initState.recordingDuration = 0 ∧
    (step (fun _ => true) (step (fun _ => true)
        (step (fun _ => true) initState Ev.stopClick) Ev.recorderStopped)
        Ev.resetClick).recordedChunks = [] ∧
    status (step (fun _ => true) (step (fun _ => true)
        (step (fun _ => true) initState Ev.stopClick) Ev.recorderStopped)
        Ev.resetClick) = Status.idle := by
  have h := idle_empty_and_reset (fun _ => true) initState Reachable.init
  exact ⟨(h.1 rfl).1, (h.1 rfl).2, h.2.1, h.2.2⟩

/-- Counterexample to C3 as stated: a chunk delivered with zero size while
the socket is open is neither appended to the local buffer nor transmitted,
although the claim (quantifying over every delivered chunk) requires it to
be appended and, the connection being open, transmitted. -/
theorem chunk_forward_zero_size_cex :
    ¬ Act.append ([] : Chunk) ∈ ondataavailable (some WSReadyState.OPEN) [] ∧
    ¬ Act.send ([] : Chunk) ∈ ondataavailable (some WSReadyState.OPEN) [] := by
  decide

/-- Claim C3 (amended to chunks of positive size, which is what the
`e.data.size > 0` guard admits): every such chunk is first appended to the
local buffer and only afterwards forwarded; it is sent exactly when a
socket is held whose ready state is `OPEN`, and is dropped otherwise; and
the buffer is extended by the chunk whatever the socket state, so
forwarding never blocks or aborts buffering. -/
theorem chunk_buffered_then_forwarded (ws : Option WSReadyState) (c : Chunk)
    (b : List Chunk) (h : 0 < c.length) :
    ondataavailable ws c =
      Act.append c ::
        (if ws = some WSReadyState.OPEN then [Act.send c] else []) ∧
    (Act.send c ∈ ondataavailable ws c ↔ ws = some WSReadyState.OPEN) ∧
    (ondataavailable ws c).foldl applyAct b = b ++ [c] := by
  refine ⟨?_, ?_, ?_⟩
  · unfold ondataavailable
    rw [if_pos h]
  · unfold ondataavailable
    rw [if_pos h]
    by_cases hw : ws = some WSReadyState.OPEN <;> simp [hw]
  · rw [foldl_ondataavailable, if_pos h]

/-- Witness for C3 (amended): a one-byte chunk is appended then sent when
the socket is open, appended only when it is closed, and buffered even
with no socket at all. -/
theorem chunk_buffered_then_forwarded_witness :
    ondataavailable (some WSReadyState.OPEN) [7] =
      [Act.append [7], Act.send [7]] ∧
    ondataavailable (some WSReadyState.CLOSED) [7] = [Act.append [7]] ∧
    (ondataavailable none [7]).foldl applyAct [] = [[7]] := by
  refine ⟨?_, ?_,
    (chunk_buffered_then_forwarded none [7] [] (by decide)).2.2⟩
  · have h :=
      (chunk_buffered_then_forwarded (some WSReadyState.OPEN) [7] []
        (by decide)).1
    simpa using h
  · have h :=
      (chunk_buffered_then_forwarded (some WSReadyState.CLOSED) [7] []
        (by decide)).1
    simpa using h

/-- Claim C4: once a recorder exists, clicking stop and letting the
recorder's `onstop` fire produces the preview artifact as the concatenation
of all buffered chunks in production order, typed with the negotiated MIME
type; with zero buffered chunks the artifact still exists, with zero-length
content. -/
theorem artifact_concatenation (isTypeSupported : String → Bool)
    (s : AppState) (hrec : s.hasRecorder = true) :
    (step isTypeSupported (step isTypeSupported s Ev.stopClick)
        Ev.recorderStopped).previewUrl =
      some { content := s.buf.flatten,
             mime := getMimeType isTypeSupported } ∧
    (step isTypeSupported (step isTypeSupported s Ev.stopClick)
        Ev.recorderStopped).recordedChunks = s.buf ∧
    (s.buf = [] →
      (step isTypeSupported (step isTypeSupported s Ev.stopClick)
          Ev.recorderStopped).previewUrl =
        some { content := [], mime := getMimeType isTypeSupported }) := by
  by_cases hr : s.isRecording = true
  · refine ⟨?_, ?_, fun hb => ?_⟩ <;>
      simp [step, stopRecording, timerEffect, onstopHandler, hrec, hr, *]
  · have hr' : s.isRecording = false := by simpa using hr
    refine ⟨?_, ?_, fun hb => ?_⟩ <;>
      simp [step, stopRecording, timerEffect, onstopHandler, hrec, hr', *]

/-- Witness for C4: stopping straight after starting, before any chunk, on
a platform supporting the first profile, yields an artifact with empty
content and that profile's MIME type. -/
theorem artifact_concatenation_witness :
    (step (fun _ => true) (step (fun _ => true)
        { initState with hasRecorder := true } Ev.stopClick)
        Ev.recorderStopped).previewUrl =
      some { content := [], mime := "video/webm;codecs=vp8,opus" } := by
  have h := artifact_concatenation (fun _ => true)
    { initState with hasRecorder := true } rfl
  exact h.2.2 rfl

/-- Claim C2: when the platform denies the device request (rejecting with
an `Error` carrying message `m`) from an idle state, `ImprovedVideoChat`'s
`startRecording` surfaces exactly that message in `streamError` (which the
UI renders), the state stays idle, and no track or timer resource is held;
the recorder `App`'s `startRecording` likewise stays idle, holds no tracks,
and logs the platform's message. -/
theorem capture_denied_stays_idle (s : IVCState) (t : AppState) (m : String)
    (h1 : s.isRecording = false) (h2 : s.stream = none)
    (h3 : t.isRecording = false) (h4 : t.stream = none) :
    (startRecordingIVC (Except.error (some m)) s).streamError = some m ∧
    (startRecordingIVC (Except.error (some m)) s).isRecording = false ∧
    (startRecordingIVC (Except.error (some m)) s).stream = none ∧
    ivcTimerActive (startRecordingIVC (Except.error (some m)) s) = false ∧
    (startRecordingFail m t).1.isRecording = false ∧
    (startRecordingFail m t).1.stream = none ∧
    (startRecordingFail m t).1.recordingDuration = t.recordingDuration ∧
    Effect.logError m ∈ (startRecordingFail m t).2 := by
  refine ⟨rfl, by simp [startRecordingIVC, h1],
    by simp [startRecordingIVC, h2],
    by simp [ivcTimerActive, startRecordingIVC, h1],
    by simp [startRecordingFail, h3], by simp [startRecordingFail, h4],
    by simp [startRecordingFail], ?_⟩
  simp [startRecordingFail]

/-- Witness for C2: denying permission at the fresh idle states surfaces
the message and keeps both components idle. -/
theorem capture_denied_stays_idle_witness :
    (startRecordingIVC (Except.error (some "Permission denied"))
        initIVC).streamError = some "Permission denied" ∧
    (startRecordingIVC (Except.error (some "Permission denied"))
        initIVC).isRecording = false ∧
    Effect.logError "Permission denied" ∈
      (startRecordingFail "Permission denied" initState).2 := by
  have h := capture_denied_stays_idle initIVC initState "Permission denied"
    rfl rfl rfl rfl
  exact ⟨h.1, h.2.1, h.2.2.2.2.2.2.2⟩

/-- Claim C7: stopping a second time immediately after a first stop changes
no state and releases no tracks, in both components; and
`ImprovedVideoChat`'s stop is a complete no-op when no session is active. -/
theorem stop_twice_noop (s : IVCState) (t : AppState) :
    stopRecordingIVC (stopRecordingIVC s).1 = ((stopRecordingIVC s).1, []) ∧
    stopRecording (stopRecording t) = stopRecording t ∧
    (s.stream = none → s.videoSrc = none → s.isRecording = false →
      s.recordingTime = 0 → s.isMuted = false →
      stopRecordingIVC s = (s, [])) := by
  obtain ⟨rec, time, muted, err, stream, vsrc⟩ := s
  refine ⟨?_, ?_, ?_⟩
  · cases stream <;> simp [stopRecordingIVC, stopMediaTracks]
  · by_cases hg : t.hasRecorder = true ∧ t.isRecording = true
    · simp [stopRecording, hg]
    · simp [stopRecording, hg]
  · intro hstr hv hr ht hm
    simp only [] at hstr hv hr ht hm
    subst hstr
    subst hv
    subst hr
    subst ht
    subst hm
    simp [stopRecordingIVC, stopMediaTracks]

/-- Witness for C7: at the fresh idle state, stop is a no-op releasing
nothing, and a second stop after a first is a no-op in both components. -/
theorem stop_twice_noop_witness :
    stopRecordingIVC initIVC = (initIVC, []) ∧
    stopRecordingIVC (stopRecordingIVC initIVC).1 =
      ((stopRecordingIVC initIVC).1, []) ∧
    stopRecording (stopRecording initState) = stopRecording initState := by
  have h := stop_twice_noop initIVC initState
  exact ⟨h.2.2 rfl rfl rfl rfl rfl, h.1, h.2.1⟩

/-- Counterexample to C8 as stated: starting a new recording while a
session with a live track exists performs no teardown of that track — the
start operation emits no track-stop effect and simply overwrites the
stream reference — contradicting the claim that the old session's tracks
are torn down before or as part of acquiring the new stream. -/
theorem start_no_teardown_cex :
    c8State.stream = some [liveTrack] ∧
    liveTrack.stopped = false ∧
    ¬ Effect.stopTrack 0 ∈
      (startRecordingOk RecType.webcam [freshTrack] c8State).2 ∧
    (startRecordingOk RecType.webcam [freshTrack] c8State).1.stream =
      some [freshTrack] := by
  decide

/-- Claim C8 (amended, as the counterexample forces): `startRecording`
overwrites the session reference with the newly acquired stream — so at
most one session is referenced afterwards — but performs no teardown of the
previous session's tracks: it emits no track-stop effect, leaving a live
prior session's tracks running. -/
theorem start_overwrites_without_teardown (ty : RecType) (ns : Stream)
    (s : AppState) :
    (startRecordingOk ty ns s).1.stream = some ns ∧
    (startRecordingOk ty ns s).2.filter isStopTrackEffect = [] := by
  refine ⟨rfl, ?_⟩
  unfold startRecordingOk setupWebSocketEffects
  by_cases hp : s.previewUrl.isSome <;> simp [hp, isStopTrackEffect]

/-- Claim C9: toggling mute while a session is held sets each audio
track's `enabled` flag to the previous muted state, flips `isMuted`, and
leaves the session, its stream and its non-audio tracks otherwise
unchanged — no track is stopped, no identity changes, and the stream
reference survives. -/
theorem toggleMute_flips_audio (s : IVCState) (tks : Stream)
    (h : s.stream = some tks) :
    (toggleMute s).stream = some (tks.map fun (t : Track) =>
        if t.kind = TrackKind.audio then { t with enabled := s.isMuted }
        else t) ∧
    (toggleMute s).isMuted = !s.isMuted ∧
    (toggleMute s).isRecording = s.isRecording ∧
    (toggleMute s).recordingTime = s.recordingTime ∧
    (toggleMute s).streamError = s.streamError ∧
    (toggleMute s).videoSrc = s.videoSrc ∧
    (∀ t ∈ tks,
      ((if t.kind = TrackKind.audio then { t with enabled := s.isMuted }
        else t) : Track).stopped = t.stopped ∧
      ((if t.kind = TrackKind.audio then { t with enabled := s.isMuted }
        else t) : Track).id = t.id ∧
      (t.kind = TrackKind.audio →
        ((if t.kind = TrackKind.audio then { t with enabled := s.isMuted }
          else t) : Track).enabled = s.isMuted) ∧
      (t.kind ≠ TrackKind.audio →
        (if t.kind = TrackKind.audio then { t with enabled := s.isMuted }
          else t) = t)) := by
  refine ⟨by simp [toggleMute, h], by simp [toggleMute, h],
    by simp [toggleMute, h], by simp [toggleMute, h],
    by simp [toggleMute, h], by simp [toggleMute, h], ?_⟩
  intro t ht
  by_cases hk : t.kind = TrackKind.audio <;> simp [hk]

/-- Witness for C9: toggling mute on a session with one audio and one
video track disables the audio track (previous muted state `false` means
it was audible; after toggling, `enabled := false`), leaves the video
track alone, and sets `isMuted`. -/
theorem toggleMute_flips_audio_witness :
    (toggleMute muteDemoState).stream =
      some [{ id := 0, kind := TrackKind.audio, enabled := false,
              stopped := false },
            { id := 1, kind := TrackKind.video, enabled := true,
              stopped := false }] ∧
    (toggleMute muteDemoState).isMuted = true := by
  have h := toggleMute_flips_audio muteDemoState muteDemoTracks rfl
  refine ⟨?_, by simpa [muteDemoState, initIVC] using h.2.1⟩
  simpa [muteDemoState, muteDemoTracks, initIVC] using h.1

end AIInterview
